import Mathlib

/-!
Shallow embedding of the flatfile transformation engine of
`prepare_addressbase_for_address_matching` (src/src/abp_pipeline), together
with theorems settling the frozen claims about it.

Modelling conventions:
* SQL `DATE` values are day numbers (`Int`), with `DATE 0001-01-01` encoded
  as `0` and the sentinel `DATE 9999-12-31` encoded as the constant `bigDate`.
* Nullable SQL columns are `Option` values; `COALESCE` is `Option.getD` or
  an explicit first-non-null choice; `NULLIF(x, y)` on strings is `nullifEmpty`.
* `concat_ws(sep, ...)` skips NULL arguments but keeps empty strings, exactly
  as in DuckDB; this is `concatWs`.
* `ROW_NUMBER() OVER (PARTITION BY k ORDER BY ...) = 1` is reified as a
  per-group minimum (`bestBy`) with respect to the lexicographic order on an
  explicit key list (`lexLt`); descending columns are negated.
-/

set_option linter.unusedVariables false

namespace ABP

/-- DuckDB `concat_ws(sep, ...)`: joins the non-NULL parts with `sep`,
keeping empty strings. -/
def concatWs (sep : String) (parts : List (Option String)) : String :=
  match parts.filterMap id with
  | [] => ""
  | s :: rest => rest.foldl (fun acc t => acc ++ sep ++ t) s

/-- SQL `NULLIF(x, chr-empty)` on a nullable string: an empty string becomes NULL. -/
def nullifEmpty (o : Option String) : Option String :=
  o.bind (fun s => if s = "" then none else some s)

/-- Drop leading spaces from a character list. -/
def dropSpaces : List Char → List Char
  | [] => []
  | c :: cs => if c = ' ' then dropSpaces cs else c :: cs

/-- SQL `TRIM(x)`: remove leading and trailing spaces (the DuckDB default
trims the space character). -/
def sqlTrim (s : String) : String :=
  String.mk ((dropSpaces ((dropSpaces s.data).reverse)).reverse)

/-- SQL `COALESCE(a, b)` for two nullable values. -/
def coalesce (a b : Option α) : Option α :=
  match a with
  | some x => some x
  | none => b

/-- Strict lexicographic comparison on integer key lists, used to reify SQL
`ORDER BY` clauses (each key column one list element; descending columns are
negated by the key builder). -/
def lexLt : List Int → List Int → Bool
  | [], [] => false
  | [], _ :: _ => true
  | _ :: _, [] => false
  | a :: as, b :: bs => if a < b then true else if b < a then false else lexLt as bs

/-- Scan a list keeping the incumbent unless a challenger is strictly smaller:
the first minimal element wins, matching `ROW_NUMBER ... = 1` with a stable
scan order. -/
def bestFrom (key : α → List Int) (b : α) : List α → α
  | [] => b
  | r :: rest => bestFrom key (if lexLt (key r) (key b) then r else b) rest

/-- The first row minimal with respect to `lexLt` on `key`, if any. -/
def bestBy (key : α → List Int) : List α → Option α
  | [] => none
  | r :: rest => some (bestFrom key r rest)

/-- Day-number encoding of the sentinel `DATE 9999-12-31` used by
`COALESCE(end_date, DATE 9999-12-31)` in the SQL (day 0 is `0001-01-01`). -/
def bigDate : Int := 3652058

/-- `COALESCE(end_date, DATE 9999-12-31)`. -/
def endKey (d : Option Int) : Int := d.getD bigDate

/-- `COALESCE(last_update_date, DATE 0001-01-01)`. -/
def updKey (d : Option Int) : Int := d.getD 0

/-- A BLPU row of the `blpu` parquet view (property unit). -/
structure Blpu where
  uprn : Int
  postcode_locator : Option String
  blpu_state : Option String
  addressbase_postal : Option String
  parent_uprn : Option Int
deriving DecidableEq, Repr

/-- An LPI row of the `lpi` parquet view (land and property identifier). -/
structure Lpi where
  uprn : Int
  lpi_key : Option String
  language : String
  logical_status : Int
  official_flag : Option String
  start_date : Option Int
  end_date : Option Int
  last_update_date : Option Int
  usrn : Int
  sao_text : Option String
  sao_start_number : Option Int
  sao_start_suffix : Option String
  sao_end_number : Option Int
  sao_end_suffix : Option String
  pao_text : Option String
  pao_start_number : Option Int
  pao_start_suffix : Option String
  pao_end_number : Option Int
  pao_end_suffix : Option String
  level : Option String
deriving DecidableEq, Repr

/-- A row of the `street_descriptor` parquet view. -/
structure StreetDescriptor where
  usrn : Int
  language : String
  street_description : Option String
  locality : Option String
  town_name : Option String
  end_date : Option Int
  last_update_date : Option Int
deriving DecidableEq, Repr

/-- A row of the `organisation` parquet view. -/
structure Organisation where
  uprn : Int
  organisation : Option String
  legal_name : Option String
  start_date : Option Int
  end_date : Option Int
deriving DecidableEq, Repr

/-- A row of the `delivery_point` parquet view. -/
structure DeliveryPoint where
  uprn : Int
  udprn : Option Int
  postcode : Option String
  department_name : Option String
  organisation_name : Option String
  sub_building_name : Option String
  building_name : Option String
  building_number : Option String
  dependent_thoroughfare : Option String
  thoroughfare : Option String
  double_dependent_locality : Option String
  dependent_locality : Option String
  post_town : Option String
  end_date : Option Int
  last_update_date : Option Int
deriving DecidableEq, Repr

/-- A row of the `classification` parquet view. -/
structure Classification where
  uprn : Int
  classification_code : Option String
  class_scheme : Option String
  end_date : Option Int
  last_update_date : Option Int
deriving DecidableEq, Repr

/-- The six input tables registered by `transform_to_flatfile`
(src/src/abp_pipeline/transform/runner.py, lines 59-64). -/
structure Inputs where
  blpus : List Blpu
  lpis : List Lpi
  street_descriptors : List StreetDescriptor
  organisations : List Organisation
  delivery_points : List DeliveryPoint
  classifications : List Classification
deriving DecidableEq, Repr

/-- `ORDER BY COALESCE(end_date, DATE 9999-12-31) DESC,
COALESCE(last_update_date, DATE 0001-01-01) DESC` for street descriptors
(src/src/abp_pipeline/transform/stages/lpi.py, lines 18-20 and 35-37);
descending columns are negated so that `lexLt`-minimal means first. -/
def sdKey (sd : StreetDescriptor) : List Int :=
  [-(endKey sd.end_date), -(updKey sd.last_update_date)]

/-- The `_sd_best_by_lang` view restricted to one `(usrn, language)` group:
the `rn = 1` row (src/src/abp_pipeline/transform/stages/lpi.py, lines 11-25). -/
def sdBestByLang (sds : List StreetDescriptor) (usrn : Int) (lang : String) :
    Option StreetDescriptor :=
  bestBy sdKey (sds.filter (fun sd => decide (sd.usrn = usrn ∧ sd.language = lang)))

/-- The `_sd_best_any` view restricted to one `usrn` group: the `rn = 1` row
(src/src/abp_pipeline/transform/stages/lpi.py, lines 28-42). -/
def sdBestAny (sds : List StreetDescriptor) (usrn : Int) : Option StreetDescriptor :=
  bestBy sdKey (sds.filter (fun sd => decide (sd.usrn = usrn)))

/-- The three `COALESCE(sd_lang.x, sd_any.x)` field resolutions of
`prepare_lpi_base` (src/src/abp_pipeline/transform/stages/lpi.py, lines 69-71):
street description, locality, town. -/
def resolveStreetFields (sds : List StreetDescriptor) (usrn : Int) (lang : String) :
    Option String × Option String × Option String :=
  let sdLang := sdBestByLang sds usrn lang
  let sdAny := sdBestAny sds usrn
  (coalesce (sdLang.bind (·.street_description)) (sdAny.bind (·.street_description)),
   coalesce (sdLang.bind (·.locality)) (sdAny.bind (·.locality)),
   coalesce (sdLang.bind (·.town_name)) (sdAny.bind (·.town_name)))

/-- The `build_component` SQL macro
(src/src/abp_pipeline/transform/common.py, lines 55-73). -/
def build_component (text : Option String) (startNumber : Option Int)
    (startSuffix : Option String) (endNumber : Option Int) (endSuffix : Option String) :
    String :=
  sqlTrim (concatWs " "
    [nullifEmpty text,
     match startNumber, endNumber with
     | some n, none => some (toString n ++ startSuffix.getD "")
     | _, _ => none,
     match startNumber, endNumber with
     | some n, some e =>
         some (toString n ++ startSuffix.getD "" ++ "-" ++ toString e ++ endSuffix.getD "")
     | _, _ => none])

/-- The `build_base_address` SQL macro
(src/src/abp_pipeline/transform/common.py, lines 76-92). -/
def build_base_address (l : Lpi)
    (street locality town postcode : Option String) : String :=
  sqlTrim (concatWs " "
    [nullifEmpty (some (sqlTrim (concatWs " "
        [some (build_component l.sao_text l.sao_start_number l.sao_start_suffix
                 l.sao_end_number l.sao_end_suffix),
         some (build_component l.pao_text l.pao_start_number l.pao_start_suffix
                 l.pao_end_number l.pao_end_suffix)]))),
     nullifEmpty street,
     nullifEmpty locality,
     nullifEmpty town,
     nullifEmpty postcode])

/-- `CASE l.logical_status WHEN 1 THEN 0 WHEN 3 THEN 1 WHEN 6 THEN 2
WHEN 8 THEN 3 ELSE 9 END` (src/src/abp_pipeline/transform/stages/lpi.py,
lines 80-86). -/
def statusRank (s : Int) : Int :=
  if s = 1 then 0 else if s = 3 then 1 else if s = 6 then 2 else if s = 8 then 3 else 9

/-- The hierarchy-level CASE of `prepare_lpi_base`
(src/src/abp_pipeline/transform/stages/lpi.py, lines 63-67). -/
def hierarchyLevel (blpus : List Blpu) (b : Blpu) (uprn : Int) : String :=
  if b.parent_uprn.isSome then "C"
  else if blpus.any (fun b2 => b2.parent_uprn == some uprn) then "P"
  else "S"

/-- `b.addressbase_postal != chr-N OR b.addressbase_postal IS NULL`
(src/src/abp_pipeline/transform/stages/lpi.py, line 91). -/
def postalOk (b : Blpu) : Bool :=
  match b.addressbase_postal with
  | none => true
  | some v => v != "N"

/-- One row of the `lpi_base_full` temporary table. -/
structure BaseRow where
  uprn : Int
  lpi_key : Option String
  language : String
  logical_status : Int
  official_flag : Option String
  start_date : Option Int
  end_date : Option Int
  last_update_date : Option Int
  postcode : Option String
  blpu_state : Option String
  postal_address_code : Option String
  parent_uprn : Option Int
  hierarchy_level : String
  level : Option String
  street_description : Option String
  locality_name : Option String
  town_name : Option String
  base_address : String
  status_rank : Int
deriving DecidableEq, Repr

/-- The SELECT row constructor of `lpi_base_full` for one joined `(l, b)` pair
(src/src/abp_pipeline/transform/stages/lpi.py, lines 48-93). -/
def mkBaseRow (data : Inputs) (l : Lpi) (b : Blpu) : BaseRow :=
  let f := resolveStreetFields data.street_descriptors l.usrn l.language
  { uprn := l.uprn
    lpi_key := l.lpi_key
    language := l.language
    logical_status := l.logical_status
    official_flag := l.official_flag
    start_date := l.start_date
    end_date := l.end_date
    last_update_date := l.last_update_date
    postcode := b.postcode_locator
    blpu_state := b.blpu_state
    postal_address_code := b.addressbase_postal
    parent_uprn := b.parent_uprn
    hierarchy_level := hierarchyLevel data.blpus b l.uprn
    level := l.level
    street_description := f.1
    locality_name := f.2.1
    town_name := f.2.2
    base_address := build_base_address l f.1 f.2.1 f.2.2 b.postcode_locator
    status_rank := statusRank l.logical_status }

/-- The `lpi_base_full` temporary table: `lpi JOIN blpu ON uprn` with the
postal filter and `logical_status IN (1, 3, 6, 8)`
(src/src/abp_pipeline/transform/stages/lpi.py, lines 47-93). -/
def lpi_base_full (data : Inputs) : List BaseRow :=
  (data.lpis.filter (fun l => decide (l.logical_status ∈ [(1 : Int), 3, 6, 8]))).bind
    (fun l =>
      (data.blpus.filter (fun b => decide (b.uprn = l.uprn) && postalOk b)).map
        (mkBaseRow data l))

/-- One row of the `lpi_base_distinct` temporary table (the SELECT DISTINCT
projection of src/src/abp_pipeline/transform/stages/lpi.py, lines 97-115). -/
structure DistinctRow where
  uprn : Int
  base_address : String
  postcode : Option String
  logical_status : Int
  official_flag : Option String
  blpu_state : Option String
  postal_address_code : Option String
  parent_uprn : Option Int
  hierarchy_level : String
  start_date : Option Int
  end_date : Option Int
  last_update_date : Option Int
  status_rank : Int
deriving DecidableEq, Repr

/-- Projection of a `lpi_base_full` row onto the `lpi_base_distinct` columns. -/
def projDistinct (r : BaseRow) : DistinctRow :=
  { uprn := r.uprn
    base_address := r.base_address
    postcode := r.postcode
    logical_status := r.logical_status
    official_flag := r.official_flag
    blpu_state := r.blpu_state
    postal_address_code := r.postal_address_code
    parent_uprn := r.parent_uprn
    hierarchy_level := r.hierarchy_level
    start_date := r.start_date
    end_date := r.end_date
    last_update_date := r.last_update_date
    status_rank := r.status_rank }

/-- The `lpi_base_distinct` temporary table: SELECT DISTINCT of the projected
columns over `lpi_base_full` rows with non-empty `base_address`
(src/src/abp_pipeline/transform/stages/lpi.py, lines 96-115). -/
def lpi_base_distinct (data : Inputs) : List DistinctRow :=
  (((lpi_base_full data).filter (fun r => decide (r.base_address ≠ ""))).map
    projDistinct).dedup

/-- One row of the `lpi_best_current` temporary table
(src/src/abp_pipeline/transform/stages/lpi.py, lines 119-143). -/
structure BestRow where
  uprn : Int
  base_address : String
  postcode : Option String
  logical_status : Int
  official_flag : Option String
  blpu_state : Option String
  postal_address_code : Option String
  parent_uprn : Option Int
  hierarchy_level : String
  status_rank : Int
  last_update_date : Option Int
deriving DecidableEq, Repr

/-- Projection of a `lpi_base_distinct` row onto the `lpi_best_current`
columns. -/
def toBestRow (r : DistinctRow) : BestRow :=
  { uprn := r.uprn
    base_address := r.base_address
    postcode := r.postcode
    logical_status := r.logical_status
    official_flag := r.official_flag
    blpu_state := r.blpu_state
    postal_address_code := r.postal_address_code
    parent_uprn := r.parent_uprn
    hierarchy_level := r.hierarchy_level
    status_rank := r.status_rank
    last_update_date := r.last_update_date }

/-- `ORDER BY status_rank, COALESCE(last_update_date, DATE 0001-01-01) DESC`
(src/src/abp_pipeline/transform/stages/lpi.py, line 137). -/
def bestCurKey (r : DistinctRow) : List Int :=
  [r.status_rank, -(updKey r.last_update_date)]

/-- The partition group of `lpi_best_current` for one uprn: the
`lpi_base_distinct` rows with `logical_status IN (1, 3, 6)`
(src/src/abp_pipeline/transform/stages/lpi.py, lines 136 and 140). -/
def bestCurrentCands (data : Inputs) (u : Int) : List DistinctRow :=
  (lpi_base_distinct data).filter
    (fun r => decide (r.uprn = u) && decide (r.logical_status ∈ [(1 : Int), 3, 6]))

/-- The distinct uprns of `lpi_base_distinct`, in first-seen order. -/
def uprnsDistinct (data : Inputs) : List Int :=
  ((lpi_base_distinct data).map (·.uprn)).dedup

/-- The `lpi_best_current` temporary table: per uprn the `rn = 1` row of the
status-filtered `lpi_base_distinct` partition
(src/src/abp_pipeline/transform/stages/lpi.py, lines 118-143). -/
def lpi_best_current (data : Inputs) : List BestRow :=
  (uprnsDistinct data).filterMap
    (fun u => (bestBy bestCurKey (bestCurrentCands data u)).map toBestRow)

/-- One united variant row shared by all four stage tables
(the uniform column shape of the staged variant tables). -/
structure VariantRow where
  uprn : Int
  postcode : Option String
  raw_address : String
  source : String
  logical_status : Option Int
  official_flag : Option String
  blpu_state : Option String
  postal_address_code : Option String
  parent_uprn : Option Int
  hierarchy_level : Option String
  variant_label : Option String
  is_primary : Bool
deriving DecidableEq, Repr

/-- `CASE logical_status WHEN 1 ... WHEN 8 THEN HISTORICAL END`
(src/src/abp_pipeline/transform/stages/lpi.py, lines 162-167). -/
def lpiVariantLabel (s : Int) : Option String :=
  if s = 1 then some "APPROVED"
  else if s = 3 then some "ALTERNATIVE"
  else if s = 6 then some "PROVISIONAL"
  else if s = 8 then some "HISTORICAL"
  else none

/-- The SELECT row constructor of `_stage_lpi_variants`
(src/src/abp_pipeline/transform/stages/lpi.py, lines 150-169). -/
def mkLpiVariant (r : DistinctRow) : VariantRow :=
  { uprn := r.uprn
    postcode := r.postcode
    raw_address := r.base_address
    source := "LPI"
    logical_status := some r.logical_status
    official_flag := r.official_flag
    blpu_state := r.blpu_state
    postal_address_code := r.postal_address_code
    parent_uprn := r.parent_uprn
    hierarchy_level := some r.hierarchy_level
    variant_label := lpiVariantLabel r.logical_status
    is_primary := decide (r.logical_status = 1) }

/-- The `_stage_lpi_variants` temporary table: one variant per
`lpi_base_distinct` row (src/src/abp_pipeline/transform/stages/lpi.py,
lines 146-170). -/
def stage_lpi_variants (data : Inputs) : List VariantRow :=
  (lpi_base_distinct data).map mkLpiVariant

/-- One organisation-name candidate of the `organisation_candidates` CTE
(src/src/abp_pipeline/transform/stages/business.py, lines 22-31). -/
structure OrgCandidate where
  uprn : Int
  name_source : String
  name_value : String
  start_date : Option Int
  end_date : Option Int
deriving DecidableEq, Repr

/-- `TRIM` of a nullable string (the `organisation_clean` CTE,
src/src/abp_pipeline/transform/stages/business.py, lines 13-21). -/
def trimOpt (o : Option String) : Option String := o.map sqlTrim

/-- The `organisation_candidates` CTE: trimmed organisation names, then
trimmed legal names distinct from the organisation name
(src/src/abp_pipeline/transform/stages/business.py, lines 22-31). -/
def orgCandidates (orgs : List Organisation) : List OrgCandidate :=
  (orgs.filterMap (fun o =>
    match trimOpt o.organisation with
    | some n =>
        if n ≠ "" then
          some { uprn := o.uprn, name_source := "ORGANISATION", name_value := n,
                 start_date := o.start_date, end_date := o.end_date }
        else none
    | none => none))
  ++ (orgs.filterMap (fun o =>
    match trimOpt o.legal_name with
    | some n =>
        if n ≠ "" ∧ (trimOpt o.organisation = none ∨ trimOpt o.organisation ≠ some n) then
          some { uprn := o.uprn, name_source := "LEGAL_NAME", name_value := n,
                 start_date := o.start_date, end_date := o.end_date }
        else none
    | none => none))

/-- The overlap CASE of the historical LATERAL ORDER BY, with SQL three-valued
logic: the candidate end date is non-NULL on this branch, a NULL candidate
start date makes the second comparison NULL and the CASE fall to ELSE 1
(src/src/abp_pipeline/transform/stages/business.py, lines 69-70). -/
def overlapRank (c : OrgCandidate) (r : DistinctRow) : Int :=
  let c1 : Bool :=
    match r.start_date with
    | none => true
    | some s =>
        match c.end_date with
        | some e => decide (e ≥ s)
        | none => false
  let c2 : Bool :=
    match r.end_date with
    | none => true
    | some e =>
        match c.start_date with
        | some s => decide (s ≤ e)
        | none => false
  if c1 && c2 then 0 else 1

/-- `ORDER BY overlap-case, status_rank,
COALESCE(last_update_date, DATE 0001-01-01) DESC` of the historical LATERAL
(src/src/abp_pipeline/transform/stages/business.py, lines 68-72). -/
def histKey (c : OrgCandidate) (r : DistinctRow) : List Int :=
  [overlapRank c r, r.status_rank, -(updKey r.last_update_date)]

/-- The `lpi_base_distinct` rows of one uprn (the LATERAL correlation
`lb.uprn = oc.uprn`, src/src/abp_pipeline/transform/stages/business.py,
line 67). -/
def distinctFor (data : Inputs) (u : Int) : List DistinctRow :=
  (lpi_base_distinct data).filter (fun r => decide (r.uprn = u))

/-- The LATERAL `... ORDER BY ... LIMIT 1` subquery for one historical
candidate (src/src/abp_pipeline/transform/stages/business.py, lines 63-74). -/
def chooseHist (data : Inputs) (c : OrgCandidate) : Option DistinctRow :=
  bestBy (histKey c) (distinctFor data c.uprn)

/-- The SELECT row constructor of the `current_variants` CTE
(src/src/abp_pipeline/transform/stages/business.py, lines 32-48). -/
def mkCurrentRow (c : OrgCandidate) (lb : BestRow) : VariantRow :=
  { uprn := c.uprn
    postcode := lb.postcode
    raw_address := sqlTrim (concatWs " " [some c.name_value, some lb.base_address])
    source := "ORGANISATION"
    logical_status := some lb.logical_status
    official_flag := lb.official_flag
    blpu_state := lb.blpu_state
    postal_address_code := lb.postal_address_code
    parent_uprn := lb.parent_uprn
    hierarchy_level := some lb.hierarchy_level
    variant_label :=
      some (if c.name_source = "LEGAL_NAME" then "BUSINESS_CURRENT_LEGAL"
            else "BUSINESS_CURRENT")
    is_primary := false }

/-- The SELECT row constructor of the `historical_variants` CTE
(src/src/abp_pipeline/transform/stages/business.py, lines 49-76). -/
def mkHistRow (c : OrgCandidate) (lb : DistinctRow) : VariantRow :=
  { uprn := c.uprn
    postcode := lb.postcode
    raw_address := sqlTrim (concatWs " " [some c.name_value, some lb.base_address])
    source := "ORGANISATION"
    logical_status := some lb.logical_status
    official_flag := lb.official_flag
    blpu_state := lb.blpu_state
    postal_address_code := lb.postal_address_code
    parent_uprn := lb.parent_uprn
    hierarchy_level := some lb.hierarchy_level
    variant_label :=
      some (if c.name_source = "LEGAL_NAME" then "BUSINESS_HISTORICAL_LEGAL"
            else "BUSINESS_HISTORICAL")
    is_primary := false }

/-- The `current_variants` CTE: candidates without an end date joined to
`lpi_best_current` on uprn (src/src/abp_pipeline/transform/stages/business.py,
lines 32-48). -/
def currentVariants (data : Inputs) : List VariantRow :=
  ((orgCandidates data.organisations).filter (fun c => decide (c.end_date = none))).bind
    (fun c =>
      ((lpi_best_current data).filter (fun lb => decide (lb.uprn = c.uprn))).map
        (mkCurrentRow c))

/-- The `historical_variants` CTE: candidates with an end date, each LATERAL
joined to its best-fitting `lpi_base_distinct` row
(src/src/abp_pipeline/transform/stages/business.py, lines 49-76). -/
def historicalVariants (data : Inputs) : List VariantRow :=
  ((orgCandidates data.organisations).filter (fun c => decide (c.end_date ≠ none))).filterMap
    (fun c => (chooseHist data c).map (mkHistRow c))

/-- The `_stage_business_variants` temporary table: current variants unioned
with historical variants, the final WHERE filtering only the historical arm
(src/src/abp_pipeline/transform/stages/business.py, lines 77-87). -/
def stage_business_variants (data : Inputs) : List VariantRow :=
  currentVariants data
    ++ (historicalVariants data).filter (fun v => decide (v.raw_address ≠ ""))

/-- The `raw_address` rendering of the `delivery_rendered` CTE
(src/src/abp_pipeline/transform/stages/postal.py, lines 40-51). -/
def renderDp (d : DeliveryPoint) : String :=
  sqlTrim (concatWs " "
    [nullifEmpty (some (sqlTrim (concatWs " "
        [d.department_name, d.organisation_name, d.sub_building_name,
         d.building_name, d.building_number]))),
     nullifEmpty d.dependent_thoroughfare,
     nullifEmpty d.thoroughfare,
     nullifEmpty d.double_dependent_locality,
     nullifEmpty d.dependent_locality,
     nullifEmpty d.post_town,
     nullifEmpty d.postcode])

/-- The SELECT row constructor of `_stage_delivery_point_variants`
(src/src/abp_pipeline/transform/stages/postal.py, lines 55-67). -/
def mkDpVariant (d : DeliveryPoint) : VariantRow :=
  { uprn := d.uprn
    postcode := d.postcode
    raw_address := renderDp d
    source := "DELIVERY_POINT"
    logical_status := none
    official_flag := none
    blpu_state := none
    postal_address_code := none
    parent_uprn := none
    hierarchy_level := none
    variant_label := some "DELIVERY"
    is_primary := false }

/-- The `_stage_delivery_point_variants` temporary table: records with a
non-NULL postcode, rendered, rows with empty text dropped
(src/src/abp_pipeline/transform/stages/postal.py, lines 31-70). -/
def stage_delivery_point_variants (dps : List DeliveryPoint) : List VariantRow :=
  ((dps.filter (fun d => decide (d.postcode ≠ none))).map mkDpVariant).filter
    (fun v => decide (v.raw_address ≠ ""))

/-- Characters before the first comma. -/
def takeUntilComma : List Char → List Char
  | [] => []
  | c :: cs => if c = ',' then [] else c :: takeUntilComma cs

/-- `split_part(level, chr-comma, 1)`: text before the first comma. -/
def splitPart1 (s : String) : String := String.mk (takeUntilComma s.data)

/-- Digit run to `Nat` (the regex guarantees only digits). -/
def digitsToNat (s : String) : Nat :=
  s.foldl (fun n c => n * 10 + (c.toNat - 48)) 0

/-- `CASE WHEN split_part(level, chr-comma, 1) ~ regex-signed-digits THEN CAST
... AS INTEGER ELSE NULL END` (src/src/abp_pipeline/transform/stages/misc.py,
lines 39-44). -/
def parseLevelInt (s : String) : Option Int :=
  match s.data with
  | '-' :: core =>
      if core ≠ [] ∧ core.all Char.isDigit then
        some (-(digitsToNat (String.mk core) : Int))
      else none
  | core =>
      if core ≠ [] ∧ core.all Char.isDigit then
        some (digitsToNat (String.mk core) : Int)
      else none

/-- The level-to-word CASE (src/src/abp_pipeline/transform/stages/misc.py,
lines 49-58). -/
def levelWord (n : Int) : Option String :=
  if n = -1 then some "BASEMENT"
  else if n = 0 then some "GROUND"
  else if n = 1 then some "FIRST"
  else if n = 2 then some "SECOND"
  else if n = 3 then some "THIRD"
  else if n = 4 then some "FOURTH"
  else if n = 5 then some "FIFTH"
  else if n = 6 then some "SIXTH"
  else none

/-- The SELECT row constructor of `_stage_custom_level_variants`
(src/src/abp_pipeline/transform/stages/misc.py, lines 61-74). -/
def mkLevelVariant (r : BaseRow) (w : String) : VariantRow :=
  { uprn := r.uprn
    postcode := r.postcode
    raw_address := sqlTrim (w ++ " " ++ r.base_address)
    source := "CUSTOM_LEVEL"
    logical_status := none
    official_flag := none
    blpu_state := none
    postal_address_code := none
    parent_uprn := none
    hierarchy_level := none
    variant_label := some "CUSTOM_LEVEL"
    is_primary := false }

/-- The `_stage_custom_level_variants` temporary table
(src/src/abp_pipeline/transform/stages/misc.py, lines 31-77). -/
def stage_custom_level_variants (data : Inputs) : List VariantRow :=
  ((lpi_base_full data).filter
      (fun r => decide (r.level ≠ none) && decide (r.base_address ≠ ""))).filterMap
    (fun r =>
      match r.level with
      | some lv =>
          match parseLevelInt (splitPart1 lv) with
          | some n =>
              if -1 ≤ n ∧ n ≤ 6 then (levelWord n).map (mkLevelVariant r) else none
          | none => none
      | none => none)

/-- `ORDER BY scheme-case, COALESCE(end_date, ...) DESC,
COALESCE(last_update_date, ...) DESC` of `classification_best`
(src/src/abp_pipeline/transform/stages/misc.py, lines 18-23). -/
def classKey (c : Classification) : List Int :=
  [if c.class_scheme = some "AddressBase Premium Classification Scheme" then 0 else 1,
   -(endKey c.end_date), -(updKey c.last_update_date)]

/-- The `classification_best` temporary table as a uprn-to-code association:
per uprn the `rn = 1` classification row
(src/src/abp_pipeline/transform/stages/misc.py, lines 8-28). -/
def classification_best (cls : List Classification) : List (Int × Option String) :=
  ((cls.map (·.uprn)).dedup).filterMap
    (fun u => (bestBy classKey (cls.filter (fun c => decide (c.uprn = u)))).map
      (fun c => (u, c.classification_code)))

/-- `ORDER BY COALESCE(end_date, ...) DESC, COALESCE(last_update_date, ...)
DESC` of `delivery_point_best` (src/src/abp_pipeline/transform/stages/postal.py,
lines 20-22). -/
def dpKey (d : DeliveryPoint) : List Int :=
  [-(endKey d.end_date), -(updKey d.last_update_date)]

/-- The `delivery_point_best` temporary table as a uprn-to-udprn association:
per uprn the `rn = 1` delivery point with non-NULL udprn
(src/src/abp_pipeline/transform/stages/postal.py, lines 8-28). -/
def delivery_point_best (dps : List DeliveryPoint) : List (Int × Int) :=
  let withU := dps.filter (fun d => decide (d.udprn ≠ none))
  ((withU.map (·.uprn)).dedup).filterMap
    (fun u => (bestBy dpKey (withU.filter (fun d => decide (d.uprn = u)))).map
      (fun d => (u, d.udprn.getD 0)))

/-- One final flatfile row: a variant plus classification code and
delivery-point reference. -/
structure FlatRow where
  uprn : Int
  postcode : Option String
  address_concat : String
  source : String
  logical_status : Option Int
  official_flag : Option String
  blpu_state : Option String
  postal_address_code : Option String
  parent_uprn : Option Int
  hierarchy_level : Option String
  variant_label : Option String
  is_primary : Bool
  classification_code : Option String
  udprn : Option Int
deriving DecidableEq, Repr

/-- First association value for a key, mirroring a left join against a table
with at most one row per key. -/
def lookupFirst (l : List (Int × β)) (u : Int) : Option β :=
  (l.find? (fun p => decide (p.1 = u))).map (·.2)

/-- Modelled from the spec: the repository imports
`abp_pipeline.transform.stages.combine` in the runner and calls
`combine.combine_and_dedupe(con)`, but `stages/combine.py` is absent from
src/. Modelled from spec section 4.6: attach the resolved classification code
and the best delivery-point reference to a variant row. -/
def attachMeta (cls : List Classification) (dps : List DeliveryPoint)
    (v : VariantRow) : FlatRow :=
  { uprn := v.uprn
    postcode := v.postcode
    address_concat := v.raw_address
    source := v.source
    logical_status := v.logical_status
    official_flag := v.official_flag
    blpu_state := v.blpu_state
    postal_address_code := v.postal_address_code
    parent_uprn := v.parent_uprn
    hierarchy_level := v.hierarchy_level
    variant_label := v.variant_label
    is_primary := v.is_primary
    classification_code := (lookupFirst (classification_best cls) v.uprn).bind id
    udprn := lookupFirst (delivery_point_best dps) v.uprn }

/-- Modelled from the spec: normalization of the rendered text used as the
dedupe key in spec section 4.6 (the rendered text, case-folded and trimmed). -/
def normalizeAddr (s : String) : String := String.mk ((sqlTrim s).data.map Char.toUpper)

/-- Modelled from the spec: the union of the four staged variant tables with
a uniform column shape (spec section 4.6). -/
def allVariants (data : Inputs) : List VariantRow :=
  stage_lpi_variants data
    ++ stage_business_variants data
    ++ stage_delivery_point_variants data.delivery_points
    ++ stage_custom_level_variants data

/-- Modelled from the spec: the unioned variants with attached metadata. -/
def combinedRows (data : Inputs) : List FlatRow :=
  (allVariants data).map (attachMeta data.classifications data.delivery_points)

/-- Modelled from the spec: the dedupe key of section 4.6,
`(identifier, normalized rendered text)`. -/
def rowKey (r : FlatRow) : Int × String := (r.uprn, normalizeAddr r.address_concat)

/-- Modelled from the spec: the representative kept for one dedupe group —
a primary-flagged row when the group has one, else the first row. -/
def pickRow (rows : List FlatRow) (k : Int × String) : Option FlatRow :=
  let grp := rows.filter (fun r => decide (rowKey r = k))
  match grp.filter (·.is_primary) with
  | p :: _ => some p
  | [] => grp.head?

/-- Modelled from the spec: `combine_and_dedupe` of the absent
`stages/combine.py`, per spec section 4.6 — union the four staged variant
tables with a uniform column shape, left-join classification and
delivery-point metadata by identifier, then deduplicate on
`(identifier, normalized rendered text)`, retaining a primary-flagged row
over non-primary ones for the same pair. -/
def combine_and_dedupe (data : Inputs) : List FlatRow :=
  ((combinedRows data).map rowKey).dedup.filterMap (pickRow (combinedRows data))

/-- The error taxonomy of `transform_to_flatfile`
(src/src/abp_pipeline/transform/runner.py and common.py): missing input
files raise `FileNotFoundError`; the post-combine count assertion raises on
mismatch. -/
inductive TfError where
  | fileNotFound (missing : List String)
  | integrityViolation (inCount outCount : Nat)
deriving DecidableEq, Repr

/-- Filesystem effects `transform_to_flatfile` performs at the published
output path (src/src/abp_pipeline/transform/runner.py, lines 116-119):
`output_path.unlink()` and `result.write_parquet(output_path)`. -/
inductive FsOp where
  | unlinkOutput
  | writeOutput (rows : List FlatRow)
deriving DecidableEq, Repr

/-- The filesystem state `transform_to_flatfile` observes and mutates: the
set of present input parquet files and the content at the published output
path (`none` when absent). -/
structure RunFs where
  inputFiles : List String
  output : Option (List FlatRow)
deriving DecidableEq, Repr

/-- The `required` list of `assert_inputs_exist`
(src/src/abp_pipeline/transform/common.py, lines 23-30). -/
def requiredInputs : List String :=
  ["blpu", "lpi", "street_descriptor", "organisation", "delivery_point", "classification"]

/-- The `missing` computation of `assert_inputs_exist`
(src/src/abp_pipeline/transform/common.py, line 31). -/
def missingInputs (files : List String) : List String :=
  requiredInputs.filter (fun n => !(files.contains n))

/-- `COUNT(DISTINCT uprn) FROM lpi_base_distinct`
(src/src/abp_pipeline/transform/runner.py, line 94). -/
def distinctUprnCount (data : Inputs) : Nat :=
  (((lpi_base_distinct data).map (·.uprn)).dedup).length

/-- `COUNT(DISTINCT uprn) FROM result`
(src/src/abp_pipeline/transform/runner.py, lines 97-99). -/
def outputUprnCount (rows : List FlatRow) : Nat :=
  ((rows.map (·.uprn)).dedup).length

/-- The control flow of `transform_to_flatfile`
(src/src/abp_pipeline/transform/runner.py, lines 22-126) as the list of
filesystem operations performed at the published output path paired with the
outcome: input existence check (line 44), output-existence idempotent skip
(lines 47-49), transformation and integrity assertion (lines 90-105), then
unlink of a pre-existing output and direct write (lines 116-119). -/
def transformTrace (fs : RunFs) (force : Bool) (data : Inputs) :
    List FsOp × Except TfError Unit :=
  let missing := missingInputs fs.inputFiles
  if missing ≠ [] then ([], .error (.fileNotFound missing))
  else if fs.output.isSome && !force then ([], .ok ())
  else
    let result := combine_and_dedupe data
    let inC := distinctUprnCount data
    let outC := outputUprnCount result
    if inC ≠ outC then ([], .error (.integrityViolation inC outC))
    else ((if fs.output.isSome then [FsOp.unlinkOutput] else []) ++ [FsOp.writeOutput result],
          .ok ())

/-- Effect of one filesystem operation on the published output path. -/
def applyOp (fs : RunFs) : FsOp → RunFs
  | .unlinkOutput => { fs with output := none }
  | .writeOutput rows => { fs with output := some rows }

/-- Effect of a sequence of filesystem operations; an interrupted run has
applied a proper prefix of the emitted operations. -/
def applyOps (fs : RunFs) (ops : List FsOp) : RunFs := ops.foldl applyOp fs

/-- Modelled from the spec: `chunk_where` is imported from
`abp_pipeline.transform.common` by tests/test_chunking.py but absent from
src/src/abp_pipeline/transform/common.py. Modelled from spec sections 4.7
and 7 and the expected messages and predicate shape asserted in
src/tests/test_chunking.py: validation errors for chunk count below 1 or
chunk index outside the half-open range, otherwise the SQL predicate string. -/
def chunk_where (column : String) (num_chunks chunk_id : Int) : Except String String :=
  if num_chunks < 1 then .error "num_chunks must be >= 1"
  else if chunk_id < 0 ∨ chunk_id ≥ num_chunks then
    .error ("chunk_id must be in range [0, " ++ toString num_chunks ++ ")")
  else
    .ok (column ++ " IS NOT NULL AND (hash(" ++ column ++ ") % "
      ++ toString num_chunks ++ ") = " ++ toString chunk_id)

/-- Demo property unit: uprn 1, postcode AB1, postal flag NULL. -/
def demoBlpu : Blpu :=
  { uprn := 1, postcode_locator := some "AB1", blpu_state := none,
    addressbase_postal := none, parent_uprn := none }

/-- Demo LPI record: approved, pao number 10, last updated on day 5. -/
def demoLpiA : Lpi :=
  { uprn := 1, lpi_key := none, language := "ENG", logical_status := 1,
    official_flag := none, start_date := none, end_date := none,
    last_update_date := some 5, usrn := 100,
    sao_text := none, sao_start_number := none, sao_start_suffix := none,
    sao_end_number := none, sao_end_suffix := none,
    pao_text := none, pao_start_number := some 10, pao_start_suffix := none,
    pao_end_number := none, pao_end_suffix := none, level := none }

/-- Demo LPI record identical to `demoLpiA` except for the last-update date:
it renders to the same base address text. -/
def demoLpiB : Lpi := { demoLpiA with last_update_date := some 6 }

/-- Demo inputs with one property and two LPI records rendering identically. -/
def demoData1 : Inputs :=
  { blpus := [demoBlpu], lpis := [demoLpiA, demoLpiB], street_descriptors := [],
    organisations := [], delivery_points := [], classifications := [] }

/-- Demo inputs that are entirely empty. -/
def demoEmpty : Inputs :=
  { blpus := [], lpis := [], street_descriptors := [], organisations := [],
    delivery_points := [], classifications := [] }

/-- Demo delivery point with a real postcode and building number 10. -/
def demoDpRec : DeliveryPoint :=
  { uprn := 1, udprn := none, postcode := some "AB1 2CD",
    department_name := none, organisation_name := none, sub_building_name := none,
    building_name := none, building_number := some "10",
    dependent_thoroughfare := none, thoroughfare := none,
    double_dependent_locality := none, dependent_locality := none,
    post_town := none, end_date := none, last_update_date := none }

/-- Demo delivery point whose postcode is the empty string (not NULL). -/
def demoDpEmptyPc : DeliveryPoint := { demoDpRec with uprn := 2, postcode := some "" }

/-- Demo inputs with only a delivery point, whose uprn is absent from
`lpi_base_distinct`: the output has one distinct uprn, the input none. -/
def demoMismatch : Inputs :=
  { demoEmpty with delivery_points := [demoDpRec] }

/-- Demo organisation record with an end date (a historical candidate). -/
def demoOrgRec : Organisation :=
  { uprn := 1, organisation := some "ACME", legal_name := none,
    start_date := some 10, end_date := some 20 }

/-- Demo inputs: the property of `demoData1` plus a historical organisation. -/
def demoOrgData : Inputs := { demoData1 with organisations := [demoOrgRec] }

/-- Demo inputs with a historical organisation but no LPI records at all. -/
def demoOrgNoAddr : Inputs := { demoEmpty with organisations := [demoOrgRec] }

/-- The candidate that `orgCandidates` produces for `demoOrgRec`. -/
def demoCand : OrgCandidate :=
  { uprn := 1, name_source := "ORGANISATION", name_value := "ACME",
    start_date := some 10, end_date := some 20 }

/-- Demo street descriptor in language ENG whose street description is NULL
but whose locality and town are set. -/
def demoSdEng : StreetDescriptor :=
  { usrn := 100, language := "ENG", street_description := none,
    locality := some "LOC1", town_name := some "T1",
    end_date := none, last_update_date := some 5 }

/-- Demo street descriptor in language CYM with all fields set and a more
recent update, hence the any-language best. -/
def demoSdCym : StreetDescriptor :=
  { usrn := 100, language := "CYM", street_description := some "S2",
    locality := some "L2", town_name := some "T2",
    end_date := none, last_update_date := some 9 }

/-- Demo street descriptor table holding both descriptors. -/
def demoSds : List StreetDescriptor := [demoSdEng, demoSdCym]

/-- The street, locality and town fields of an optional descriptor row. -/
def sdFields (o : Option StreetDescriptor) :
    Option String × Option String × Option String :=
  (o.bind (·.street_description), o.bind (·.locality), o.bind (·.town_name))

/-- A filesystem with all six inputs present and no output file. -/
def fsAll : RunFs := { inputFiles := requiredInputs, output := none }

/-- A filesystem with all six inputs present and a pre-existing output file. -/
def fsWithOutput : RunFs := { inputFiles := requiredInputs, output := some [] }

/-- A filesystem missing five of the six inputs but holding an output file. -/
def fsMissing : RunFs := { inputFiles := ["blpu"], output := some [] }


theorem lexLt_irrefl (a : List Int) : lexLt a a = false := by
  induction a with
  | nil => rfl
  | cons x xs ih => simp [lexLt, ih]

theorem lexLt_trans {a b c : List Int} (h1 : lexLt a b = true) (h2 : lexLt b c = true) :
    lexLt a c = true := by
  induction a generalizing b c with
  | nil =>
    cases b with
    | nil => simp [lexLt] at h1
    | cons y ys =>
      cases c with
      | nil => simp [lexLt] at h2
      | cons z zs => simp [lexLt]
  | cons x xs ih =>
    cases b with
    | nil => simp [lexLt] at h1
    | cons y ys =>
      cases c with
      | nil => simp [lexLt] at h2
      | cons z zs =>
        simp only [lexLt] at h1 h2 ⊢
        by_cases hxy : x < y
        · by_cases hyz : y < z
          · have hxz : x < z := lt_trans hxy hyz
            simp [hxz]
          · by_cases hzy : z < y
            · simp [hyz, hzy] at h2
            · have hyzeq : y = z := le_antisymm (not_lt.mp hzy) (not_lt.mp hyz)
              subst hyzeq
              simp [hxy]
        · by_cases hyx : y < x
          · simp [hxy, hyx] at h1
          · have hxyeq : x = y := le_antisymm (not_lt.mp hyx) (not_lt.mp hxy)
            subst hxyeq
            simp [hxy, hyx] at h1
            by_cases hyz : x < z
            · simp [hyz]
            · by_cases hzy : z < x
              · simp [hyz, hzy] at h2
              · have heq : x = z := le_antisymm (not_lt.mp hzy) (not_lt.mp hyz)
                subst heq
                simp [hyz, hzy] at h2 ⊢
                exact ih h1 h2

theorem lexLt_connex {a b : List Int} (h1 : lexLt a b = false) (h2 : lexLt b a = false) :
    a = b := by
  induction a generalizing b with
  | nil =>
    cases b with
    | nil => rfl
    | cons y ys => simp [lexLt] at h1
  | cons x xs ih =>
    cases b with
    | nil => simp [lexLt] at h2
    | cons y ys =>
      simp only [lexLt] at h1 h2
      by_cases hxy : x < y
      · simp [hxy] at h1
      · by_cases hyx : y < x
        · simp [hxy, hyx] at h2
        · have hxyeq : x = y := le_antisymm (not_lt.mp hyx) (not_lt.mp hxy)
          subst hxyeq
          simp [hxy] at h1 h2
          rw [ih h1 h2]

theorem bestFrom_mem (key : α → List Int) (l : List α) (b : α) :
    bestFrom key b l = b ∨ bestFrom key b l ∈ l := by
  induction l generalizing b with
  | nil => exact Or.inl rfl
  | cons r rest ih =>
    simp only [bestFrom]
    by_cases h : lexLt (key r) (key b) = true
    · simp [h]
      rcases ih r with h1 | h1
      · exact Or.inr (Or.inl h1)
      · exact Or.inr (Or.inr h1)
    · simp [h]
      rcases ih b with h1 | h1
      · exact Or.inl h1
      · exact Or.inr (Or.inr h1)

theorem bestFrom_min (key : α → List Int) (l : List α) (b : α) :
    ∀ r, (r = b ∨ r ∈ l) → lexLt (key r) (key (bestFrom key b l)) = false := by
  induction l generalizing b with
  | nil =>
    intro r hr
    rcases hr with rfl | hr
    · simpa [bestFrom] using lexLt_irrefl (key r)
    · simp at hr
  | cons x xs ih =>
    intro r hr
    simp only [bestFrom]
    by_cases hx : lexLt (key x) (key b) = true
    · rw [if_pos hx]
      rcases hr with rfl | hr
      · -- r is the displaced incumbent b
        by_cases hres : lexLt (key r) (key (bestFrom key x xs)) = true
        · have hxmin : lexLt (key x) (key (bestFrom key x xs)) = false :=
            ih x x (Or.inl rfl)
          have hcontra : lexLt (key x) (key (bestFrom key x xs)) = true :=
            lexLt_trans hx hres
          rw [hcontra] at hxmin
          cases hxmin
        · rw [Bool.not_eq_true] at hres
          exact hres
      · rcases List.mem_cons.mp hr with heq | hmem
        · rw [heq]
          exact ih x x (Or.inl rfl)
        · exact ih x r (Or.inr hmem)
    · rw [Bool.not_eq_true] at hx
      rw [if_neg (by simp [hx])]
      rcases hr with heq | hr
      · rw [heq]
        exact ih b b (Or.inl rfl)
      · rcases List.mem_cons.mp hr with heqx | hmem
        · -- r = x, the rejected challenger
          rw [heqx]
          by_cases hres : lexLt (key x) (key (bestFrom key b xs)) = true
          · have hbmin : lexLt (key b) (key (bestFrom key b xs)) = false :=
              ih b b (Or.inl rfl)
            by_cases hrb : lexLt (key (bestFrom key b xs)) (key b) = true
            · have hcontra : lexLt (key x) (key b) = true := lexLt_trans hres hrb
              rw [hcontra] at hx
              cases hx
            · rw [Bool.not_eq_true] at hrb
              have hkeq : key b = key (bestFrom key b xs) := lexLt_connex hbmin hrb
              rw [← hkeq] at hres
              rw [hres] at hx
              cases hx
          · rw [Bool.not_eq_true] at hres
            exact hres
        · exact ih b r (Or.inr hmem)

theorem bestBy_mem (key : α → List Int) (l : List α) (b : α)
    (h : bestBy key l = some b) : b ∈ l := by
  cases l with
  | nil => simp [bestBy] at h
  | cons r rest =>
    simp only [bestBy, Option.some.injEq] at h
    rcases bestFrom_mem key rest r with h1 | h1
    · rw [← h]; rw [h1]; exact List.mem_cons_self r rest
    · rw [← h]; exact List.mem_cons_of_mem r h1

theorem bestBy_min (key : α → List Int) (l : List α) (b : α)
    (h : bestBy key l = some b) :
    ∀ r ∈ l, lexLt (key r) (key b) = false := by
  cases l with
  | nil => simp [bestBy] at h
  | cons x rest =>
    simp only [bestBy, Option.some.injEq] at h
    intro r hr
    rw [← h]
    rcases List.mem_cons.mp hr with rfl | hmem
    · exact bestFrom_min key rest r r (Or.inl rfl)
    · exact bestFrom_min key rest x r (Or.inr hmem)

theorem bestBy_eq_none (key : α → List Int) (l : List α) :
    bestBy key l = none ↔ l = [] := by
  cases l with
  | nil => simp [bestBy]
  | cons x rest => simp [bestBy]

theorem bestBy_isSome (key : α → List Int) (l : List α) (h : l ≠ []) :
    ∃ b, bestBy key l = some b := by
  cases l with
  | nil => exact absurd rfl h
  | cons x rest => exact ⟨bestFrom key x rest, rfl⟩

theorem filter_filterMap (g : α → Option β) (p : β → Bool) (l : List α) :
    (l.filterMap g).filter p
      = l.filterMap (fun a => (g a).bind (fun b => if p b then some b else none)) := by
  induction l with
  | nil => rfl
  | cons x xs ih =>
    cases hg : g x with
    | none => simp [List.filterMap_cons, hg, ih]
    | some b =>
      by_cases hp : p b = true
      · simp [List.filterMap_cons, hg, List.filter_cons, hp, ih]
      · rw [Bool.not_eq_true] at hp
        simp [List.filterMap_cons, hg, List.filter_cons, hp, ih]

theorem filterMap_filter_unique {β : Type} (f : Int → Option β) (tag : β → Int)
    (hf : ∀ u b, f u = some b → tag b = u) (us : List Int) (hnd : us.Nodup) (u : Int) :
    (us.filterMap f).filter (fun r => decide (tag r = u))
      = if u ∈ us then (f u).toList else [] := by
  induction us with
  | nil => simp
  | cons v vs ih =>
    have hv : v ∉ vs := (List.nodup_cons.mp hnd).1
    have hvs : vs.Nodup := (List.nodup_cons.mp hnd).2
    by_cases hu : u = v
    · subst hu
      cases hfv : f u with
      | none =>
        simp only [List.filterMap_cons, hfv, ih hvs]
        simp [hv, Option.toList]
      | some b =>
        have htag : tag b = u := hf u b hfv
        simp only [List.filterMap_cons, hfv, List.filter_cons, htag]
        simp only [ih hvs]
        simp [hv, Option.toList]
    · cases hfv : f v with
      | none =>
        simp only [List.filterMap_cons, hfv, ih hvs]
        simp [List.mem_cons, hu]
      | some b =>
        have htag : tag b = v := hf v b hfv
        have hne : ¬ (tag b = u) := by
          rw [htag]
          exact fun hh => hu hh.symm
        simp only [List.filterMap_cons, hfv, List.filter_cons, hne]
        simp only [ih hvs]
        simp [List.mem_cons, hu]

/-- Claim C9: in `build_component`, when the end number is present but the
start number is absent, no numeric portion is rendered at all — the end
number and both suffixes are ignored and the result is just the trimmed
component text (empty or NULL text yields the empty string); a range is
rendered only when both numbers are present, so none is rendered here. -/
theorem build_component_end_without_start (t : Option String) (ss : Option String)
    (en : Option Int) (es : Option String) :
    build_component t none ss en es = sqlTrim (t.getD "") := by
  cases en with
  | none =>
    cases t with
    | none => rfl
    | some s =>
      by_cases hs : s = ""
      · subst hs
        rfl
      · simp [build_component, concatWs, nullifEmpty, hs]
  | some e =>
    cases t with
    | none => rfl
    | some s =>
      by_cases hs : s = ""
      · subst hs
        rfl
      · simp [build_component, concatWs, nullifEmpty, hs]

/-- Claim C8: the chunking predicate generator rejects every chunk count
below 1 and every chunk index outside the half-open range before touching
any data (it is a pure predicate-string builder), and succeeds exactly on
the indices inside the range, boundaries included. -/
theorem chunk_where_validation (column : String) (n i : Int) :
    (n < 1 → chunk_where column n i = .error "num_chunks must be >= 1") ∧
    (1 ≤ n → (i < 0 ∨ n ≤ i) →
      chunk_where column n i
        = .error ("chunk_id must be in range [0, " ++ toString n ++ ")")) ∧
    (1 ≤ n → 0 ≤ i → i < n →
      chunk_where column n i
        = .ok (column ++ " IS NOT NULL AND (hash(" ++ column ++ ") % "
            ++ toString n ++ ") = " ++ toString i)) := by
  refine ⟨fun h => ?_, fun h1 h2 => ?_, fun h1 h2 h3 => ?_⟩
  · simp [chunk_where, h]
  · have hn : ¬ n < 1 := by omega
    have hi : i < 0 ∨ i ≥ n := by omega
    simp [chunk_where, hn, hi]
  · have hn : ¬ n < 1 := by omega
    have hi : ¬ (i < 0 ∨ i ≥ n) := by
      push_neg
      omega
    simp [chunk_where, hn, hi]

/-- Witness for C8 at the boundary inputs of the tests: counts 0 and -1
rejected, indices -1, 5 and 100 rejected for count 5, indices 0 and 4
accepted for count 5, index 0 accepted for count 1. -/
theorem chunk_where_validation_witness :
    chunk_where "uprn" 0 0 = .error "num_chunks must be >= 1" ∧
    chunk_where "uprn" (-1) 0 = .error "num_chunks must be >= 1" ∧
    chunk_where "uprn" 5 (-1)
      = .error ("chunk_id must be in range [0, " ++ toString (5 : Int) ++ ")") ∧
    chunk_where "uprn" 5 5
      = .error ("chunk_id must be in range [0, " ++ toString (5 : Int) ++ ")") ∧
    chunk_where "uprn" 5 100
      = .error ("chunk_id must be in range [0, " ++ toString (5 : Int) ++ ")") ∧
    chunk_where "uprn" 5 0
      = .ok ("uprn" ++ " IS NOT NULL AND (hash(" ++ "uprn" ++ ") % "
          ++ toString (5 : Int) ++ ") = " ++ toString (0 : Int)) ∧
    chunk_where "uprn" 5 4
      = .ok ("uprn" ++ " IS NOT NULL AND (hash(" ++ "uprn" ++ ") % "
          ++ toString (5 : Int) ++ ") = " ++ toString (4 : Int)) ∧
    chunk_where "uprn" 1 0
      = .ok ("uprn" ++ " IS NOT NULL AND (hash(" ++ "uprn" ++ ") % "
          ++ toString (1 : Int) ++ ") = " ++ toString (0 : Int)) :=
  ⟨(chunk_where_validation "uprn" 0 0).1 (by decide),
   (chunk_where_validation "uprn" (-1) 0).1 (by decide),
   (chunk_where_validation "uprn" 5 (-1)).2.1 (by decide) (by decide),
   (chunk_where_validation "uprn" 5 5).2.1 (by decide) (by decide),
   (chunk_where_validation "uprn" 5 100).2.1 (by decide) (by decide),
   (chunk_where_validation "uprn" 5 0).2.2 (by decide) (by decide) (by decide),
   (chunk_where_validation "uprn" 5 4).2.2 (by decide) (by decide) (by decide),
   (chunk_where_validation "uprn" 1 0).2.2 (by decide) (by decide) (by decide)⟩

/-- Claim C10: `transform_to_flatfile` checks that all six required input
parquet files exist before the output-existence idempotency check, so a run
with any missing input fails with the file-not-found error and performs no
filesystem operation, regardless of whether the output already exists and
force is off. -/
theorem inputs_checked_before_idempotency (fs : RunFs) (force : Bool) (data : Inputs)
    (h : missingInputs fs.inputFiles ≠ []) :
    transformTrace fs force data
      = ([], .error (.fileNotFound (missingInputs fs.inputFiles))) := by
  simp [transformTrace, h]

/-- Witness for C10: the output file exists, force is off — the would-be
idempotent no-op — yet with five inputs missing the run raises
file-not-found. -/
theorem inputs_checked_before_idempotency_witness :
    transformTrace fsMissing false demoEmpty
      = ([], .error (.fileNotFound (missingInputs fsMissing.inputFiles))) ∧
    fsMissing.output.isSome = true :=
  ⟨inputs_checked_before_idempotency fsMissing false demoEmpty (by decide), by decide⟩

/-- Counterexample to C7 as stated: a delivery point whose postcode is the
empty string (not NULL) with building number 10 yields one variant — the
generator filters on `postcode IS NOT NULL`, not on non-emptiness, so an
empty postcode does not yield zero variants. -/
theorem delivery_postcode_counterexample :
    demoDpEmptyPc.postcode = some "" ∧
    (stage_delivery_point_variants [demoDpEmptyPc]).length = 1 ∧
    (stage_delivery_point_variants [demoDpEmptyPc]).map (·.raw_address) = ["10"] :=
  ⟨rfl, by decide, by decide⟩

/-- Claim C7 amended: a DELIVERY variant is produced for a delivery-point
record if and only if its postcode is non-NULL (present, possibly empty) and
the rendered concatenation of its parts is non-empty; every qualifying record
yields exactly one variant (no per-property best reduction) and none is
flagged primary. -/
theorem delivery_variants_amended (dps : List DeliveryPoint) :
    stage_delivery_point_variants dps
      = (dps.filter (fun d => decide (d.postcode ≠ none)
          && decide (renderDp d ≠ ""))).map mkDpVariant ∧
    ∀ v ∈ stage_delivery_point_variants dps,
      v.is_primary = false ∧ v.variant_label = some "DELIVERY"
        ∧ v.source = "DELIVERY_POINT" := by
  have heq : stage_delivery_point_variants dps
      = (dps.filter (fun d => decide (d.postcode ≠ none)
          && decide (renderDp d ≠ ""))).map mkDpVariant := by
    unfold stage_delivery_point_variants
    rw [List.filter_map, List.filter_filter]
    refine congrArg (List.map mkDpVariant) (List.filter_congr ?_)
    intro a _
    simp only [Function.comp, mkDpVariant]
    rw [Bool.and_comm]
  refine ⟨heq, fun v hv => ?_⟩
  rw [heq] at hv
  obtain ⟨d, _, hd⟩ := List.mem_map.mp hv
  rw [← hd]
  exact ⟨rfl, rfl, rfl⟩

/-- Witness for C7 at the spec scenario: postcode AB1 2CD and building
number 10 yield exactly one non-primary DELIVERY variant whose text contains
both. -/
theorem delivery_variants_witness :
    stage_delivery_point_variants [demoDpRec] = [mkDpVariant demoDpRec] ∧
    (mkDpVariant demoDpRec).raw_address = "10 AB1 2CD" ∧
    (mkDpVariant demoDpRec).is_primary = false := by
  have h := delivery_variants_amended [demoDpRec]
  refine ⟨?_, by decide, (h.2 (mkDpVariant demoDpRec) (by decide)).1⟩
  rw [h.1]
  rfl

/-- Counterexample to C2 as stated: a forced successful run on a filesystem
holding a previous output emits the operation sequence unlink-then-write at
the published output path (no temporary file, no atomic rename), so the
interruption that has applied only the unlink — a proper prefix of the
trace — leaves the output path changed: the previous output is deleted and
nothing has replaced it. -/
theorem atomic_publication_counterexample :
    fsWithOutput.output = some [] ∧
    transformTrace fsWithOutput true demoEmpty
      = ([FsOp.unlinkOutput] ++ [FsOp.writeOutput (combine_and_dedupe demoEmpty)],
         .ok ()) ∧
    (applyOps fsWithOutput [FsOp.unlinkOutput]).output ≠ fsWithOutput.output :=
  ⟨rfl, rfl, by decide⟩

/-- Claim C2 amended: every run that fails (missing inputs or the integrity
check) performs no filesystem operation, so the published output path is left
exactly as it was; but a completed run deletes any pre-existing output and
then writes the new result directly at the published path — there is no
write-to-temporary-plus-atomic-rename — so only an interruption inside that
final unlink-write phase can expose an intermediate state. -/
theorem atomic_publication_amended (fs : RunFs) (force : Bool) (data : Inputs) :
    (∀ e, (transformTrace fs force data).2 = .error e →
      applyOps fs (transformTrace fs force data).1 = fs) ∧
    ((transformTrace fs force data).1 = [] ∨
     (transformTrace fs force data).1 = [FsOp.writeOutput (combine_and_dedupe data)] ∨
     (transformTrace fs force data).1
        = [FsOp.unlinkOutput, FsOp.writeOutput (combine_and_dedupe data)]) := by
  by_cases h1 : missingInputs fs.inputFiles = []
  · by_cases h2 : (fs.output.isSome && !force) = true
    · constructor
      · intro e he
        simp [transformTrace, h1, h2] at he
      · simp [transformTrace, h1, h2]
    · by_cases h3 : distinctUprnCount data = outputUprnCount (combine_and_dedupe data)
      · constructor
        · intro e he
          simp [transformTrace, h1, h2, h3] at he
        · rcases ho : fs.output with _ | rows
          · right
            left
            simp [transformTrace, h1, h2, h3, ho]
          · right
            right
            have hforce : force = true := by
              cases force
              · rw [ho] at h2
                simp at h2
              · rfl
            subst hforce
            simp [transformTrace, h1, h2, h3, ho]
      · constructor
        · intro e he
          simp [transformTrace, h1, h2, h3, applyOps]
        · left
          simp [transformTrace, h1, h2, h3]
  · constructor
    · intro e he
      simp [transformTrace, h1, applyOps]
    · left
      simp [transformTrace, h1]

/-- Witness for C2 amended: a run failing on missing inputs leaves the
filesystem unchanged. -/
theorem atomic_publication_amended_witness :
    applyOps fsMissing (transformTrace fsMissing false demoEmpty).1 = fsMissing :=
  (atomic_publication_amended fsMissing false demoEmpty).1
    (.fileNotFound (missingInputs fsMissing.inputFiles)) (by rfl)

/-- Counterexample to C3 as stated: `demoLpiA` and `demoLpiB` are two
LandPropertyRecords of the same property differing only in their last-update
date; both render to the base address text 10 AB1, yet the LPI variant table
holds two rows for the pair (1, 10 AB1) — the SELECT DISTINCT of
`lpi_base_distinct` ranges over all projected columns, not over
(identifier, rendered text). -/
theorem dedup_stability_counterexample :
    demoLpiA.uprn = demoLpiB.uprn ∧
    demoLpiA ≠ demoLpiB ∧
    demoData1.lpis = [demoLpiA, demoLpiB] ∧
    (lpi_base_full demoData1).map (·.base_address) = ["10 AB1", "10 AB1"] ∧
    ((stage_lpi_variants demoData1).filter
      (fun v => decide (v.uprn = 1 ∧ v.raw_address = "10 AB1"))).length = 2 :=
  ⟨rfl, by decide, rfl, by decide, by decide⟩

/-- Claim C3 amended: `lpi_base_distinct` deduplicates on the whole projected
row — identifier, rendered text, postcode, status, flags, dates and rank —
so two LandPropertyRecords with identical rendered text collapse to a single
LPI variant row exactly when they agree on the entire projection; each
distinct projected row appears exactly once, and the LPI variant generator
emits exactly one row per `lpi_base_distinct` row. -/
theorem dedup_full_projection_amended (data : Inputs) (r : DistinctRow) :
    (lpi_base_distinct data).count r ≤ 1 ∧
    (r ∈ lpi_base_distinct data ↔
      r ∈ ((lpi_base_full data).filter
        (fun b => decide (b.base_address ≠ ""))).map projDistinct) ∧
    (stage_lpi_variants data).length = (lpi_base_distinct data).length := by
  refine ⟨?_, ?_, ?_⟩
  · unfold lpi_base_distinct
    rw [List.count_dedup]
    split <;> omega
  · exact List.mem_dedup
  · exact List.length_map _ _

/-- Counterexample to C6 as stated: for street reference 100 in language ENG
a same-language best descriptor exists (`demoSdEng`, whose street description
is NULL), yet the resolved triple mixes fields of two descriptors — street
description from the any-language best `demoSdCym`, locality and town from
`demoSdEng` — so the resolved fields neither all come from the language best
nor all from the any-language best, and the any-language best is consulted
even though a same-language descriptor exists. -/
theorem street_fallback_counterexample :
    (sdBestByLang demoSds 100 "ENG").isSome = true ∧
    resolveStreetFields demoSds 100 "ENG" = (some "S2", some "LOC1", some "T1") ∧
    resolveStreetFields demoSds 100 "ENG" ≠ sdFields (sdBestByLang demoSds 100 "ENG") ∧
    resolveStreetFields demoSds 100 "ENG" ≠ sdFields (sdBestAny demoSds 100) :=
  ⟨by decide, by decide, by decide, by decide⟩

/-- Claim C6 amended: the street text resolution is per-field. Each of the
resolved street description, locality and town is the field of the best
same-language descriptor when that descriptor exists and has the field
non-NULL, falling back to the field of the any-language best otherwise; in
particular when no same-language descriptor exists all three fields come
from the any-language best, and when the same-language best has all three
fields non-NULL all three come from it. The best descriptor per
(street reference, language) is a member of that group that no other member
beats on latest validity end (NULL sorting as never-expiring) then latest
update. -/
theorem street_fallback_amended (sds : List StreetDescriptor) (usrn : Int)
    (lang : String) :
    (sdBestByLang sds usrn lang = none →
      resolveStreetFields sds usrn lang = sdFields (sdBestAny sds usrn)) ∧
    (∀ d, sdBestByLang sds usrn lang = some d →
      d.street_description ≠ none → d.locality ≠ none → d.town_name ≠ none →
      resolveStreetFields sds usrn lang
        = (d.street_description, d.locality, d.town_name)) ∧
    (∀ d, sdBestByLang sds usrn lang = some d →
      d ∈ sds ∧ d.usrn = usrn ∧ d.language = lang ∧
      ∀ e ∈ sds, e.usrn = usrn → e.language = lang →
        lexLt (sdKey e) (sdKey d) = false) := by
  refine ⟨fun h => ?_, fun d hd h1 h2 h3 => ?_, fun d hd => ?_⟩
  · simp [resolveStreetFields, h, coalesce, sdFields]
  · rcases hs : d.street_description with _ | s
    · exact absurd hs h1
    · rcases hl : d.locality with _ | loc
      · exact absurd hl h2
      · rcases ht : d.town_name with _ | town
        · exact absurd ht h3
        · simp [resolveStreetFields, hd, hs, hl, ht, coalesce]
  · have hmem := bestBy_mem sdKey _ d hd
    have hmin := bestBy_min sdKey _ d hd
    have hdm := List.mem_filter.mp hmem
    have hcond := of_decide_eq_true hdm.2
    refine ⟨hdm.1, hcond.1, hcond.2, fun e he h1 h2 => ?_⟩
    exact hmin e (List.mem_filter.mpr ⟨he, decide_eq_true ⟨h1, h2⟩⟩)

/-- Witness for C6 amended: with no FRA descriptor all fields come from the
any-language best, and `demoSdEng` is the ENG best, beaten by no ENG
descriptor. -/
theorem street_fallback_amended_witness :
    resolveStreetFields demoSds 100 "FRA" = sdFields (sdBestAny demoSds 100) ∧
    demoSdEng ∈ demoSds ∧
    resolveStreetFields demoSds 100 "CYM"
      = (demoSdCym.street_description, demoSdCym.locality, demoSdCym.town_name) :=
  ⟨(street_fallback_amended demoSds 100 "FRA").1 (by decide),
   ((street_fallback_amended demoSds 100 "ENG").2.2 demoSdEng (by decide)).1,
   (street_fallback_amended demoSds 100 "CYM").2.1 demoSdCym (by decide)
     (by decide) (by decide) (by decide)⟩

theorem best_current_tag (data : Inputs) (u : Int) (br : BestRow)
    (h : (bestBy bestCurKey (bestCurrentCands data u)).map toBestRow = some br) :
    br.uprn = u := by
  rcases Option.map_eq_some'.mp h with ⟨b, hb, heq⟩
  have hmem := bestBy_mem bestCurKey _ b hb
  have hcond := of_decide_eq_true (Bool.and_elim_left (List.mem_filter.mp hmem).2)
  rw [← heq]
  exact hcond

/-- Claim C4: per property identifier, `lpi_best_current` holds exactly one
row when the identifier has at least one `lpi_base_distinct` row with a
non-historical logical status (approved, alternative or provisional), namely
the image of a candidate row that no candidate beats on status_rank ascending
then most recent last-update date descending; an identifier whose rows are
all historical has no row. -/
theorem best_current_selection (data : Inputs) (u : Int) :
    (bestCurrentCands data u = [] →
      (lpi_best_current data).filter (fun r => decide (r.uprn = u)) = []) ∧
    (bestCurrentCands data u ≠ [] →
      ∃ b, (lpi_best_current data).filter (fun r => decide (r.uprn = u))
          = [toBestRow b] ∧
        b ∈ bestCurrentCands data u ∧
        ∀ r ∈ bestCurrentCands data u,
          lexLt (bestCurKey r) (bestCurKey b) = false) := by
  have hsplit := filterMap_filter_unique
    (fun u => (bestBy bestCurKey (bestCurrentCands data u)).map toBestRow)
    BestRow.uprn (best_current_tag data) (uprnsDistinct data)
    (List.nodup_dedup _) u
  constructor
  · intro hempty
    have hnone : bestBy bestCurKey (bestCurrentCands data u) = none := by
      rw [hempty]
      rfl
    show (lpi_best_current data).filter (fun r => decide (r.uprn = u)) = []
    rw [show lpi_best_current data = (uprnsDistinct data).filterMap
        (fun u => (bestBy bestCurKey (bestCurrentCands data u)).map toBestRow) from rfl]
    rw [hsplit, hnone]
    split <;> rfl
  · intro hne
    obtain ⟨b, hb⟩ := bestBy_isSome bestCurKey _ hne
    have hmem := bestBy_mem bestCurKey _ b hb
    have hfil := List.mem_filter.mp hmem
    have huprn : b.uprn = u := of_decide_eq_true (Bool.and_elim_left hfil.2)
    have humem : u ∈ uprnsDistinct data := by
      apply List.mem_dedup.mpr
      rw [← huprn]
      exact List.mem_map_of_mem _ hfil.1
    refine ⟨b, ?_, hmem, bestBy_min bestCurKey _ b hb⟩
    rw [show lpi_best_current data = (uprnsDistinct data).filterMap
        (fun u => (bestBy bestCurKey (bestCurrentCands data u)).map toBestRow) from rfl]
    rw [hsplit, hb]
    simp [humem, Option.toList]

/-- Witness for C4: property 1 of `demoData1` has non-historical candidate
rows, and its best-current filter returns exactly one row. -/
theorem best_current_selection_witness :
    ∃ b, (lpi_best_current demoData1).filter (fun r => decide (r.uprn = 1))
        = [toBestRow b] ∧
      b ∈ bestCurrentCands demoData1 1 := by
  obtain ⟨b, h1, h2, _⟩ := (best_current_selection demoData1 1).2 (by decide)
  exact ⟨b, h1, h2⟩

/-- Counterexample to C5 as stated: `demoOrgNoAddr` holds exactly one
organisation candidate, which has an end date, yet the business variant
table is empty — the historical arm is an inner LATERAL join, so a candidate
whose property has no `lpi_base_distinct` row emits zero variants, not
exactly one. -/
theorem org_historical_counterexample :
    orgCandidates demoOrgNoAddr.organisations = [demoCand] ∧
    demoCand.end_date = some 20 ∧
    stage_business_variants demoOrgNoAddr = [] :=
  ⟨by decide, rfl, by decide⟩

/-- Claim C5 amended: for every organisation candidate with an end date the
LATERAL subquery selects at most one `lpi_base_distinct` row of the same
property — a row beaten by no other on interval-overlap first, then
status_rank, then most recent last-update date — selecting none exactly when
the property has no such row (in which case the candidate emits no variant);
the historical variant table is a filterMap over the end-dated candidates,
emitting at most one row per candidate, never a cross product. -/
theorem org_historical_amended (data : Inputs) :
    (∀ c ∈ orgCandidates data.organisations, c.end_date ≠ none →
      (distinctFor data c.uprn = [] → chooseHist data c = none) ∧
      (∀ b, chooseHist data c = some b →
        b ∈ distinctFor data c.uprn ∧
        ∀ r ∈ distinctFor data c.uprn,
          lexLt (histKey c r) (histKey c b) = false)) ∧
    (historicalVariants data).filter (fun v => decide (v.raw_address ≠ ""))
      = ((orgCandidates data.organisations).filter
          (fun c => decide (c.end_date ≠ none))).filterMap
          (fun c => (chooseHist data c).bind (fun b =>
            if decide ((mkHistRow c b).raw_address ≠ "") then some (mkHistRow c b)
            else none)) := by
  constructor
  · intro c _ _
    constructor
    · intro hempty
      unfold chooseHist
      rw [hempty]
      rfl
    · intro b hb
      exact ⟨bestBy_mem _ _ b hb, bestBy_min _ _ b hb⟩
  · unfold historicalVariants
    rw [filter_filterMap]
    have hfun : (fun c => ((chooseHist data c).map (mkHistRow c)).bind
          (fun b => if decide (b.raw_address ≠ "") then some b else none))
        = (fun c => (chooseHist data c).bind (fun b =>
            if decide ((mkHistRow c b).raw_address ≠ "") then some (mkHistRow c b)
            else none)) := by
      funext c
      cases chooseHist data c <;> rfl
    rw [hfun]

/-- Witness for C5 amended: the end-dated candidate of `demoOrgData` gets a
single chosen address row, a member of the distinct rows of property 1 that
no other row beats. -/
theorem org_historical_amended_witness :
    ∃ b, chooseHist demoOrgData demoCand = some b ∧
      b ∈ distinctFor demoOrgData 1 ∧
      ∀ r ∈ distinctFor demoOrgData 1,
        lexLt (histKey demoCand r) (histKey demoCand b) = false := by
  have h := ((org_historical_amended demoOrgData).1 demoCand (by decide) (by decide)).2
  rcases hc : chooseHist demoOrgData demoCand with _ | b
  · exact absurd hc (by decide)
  · exact ⟨b, rfl, (h b hc).1, (h b hc).2⟩

theorem pickRow_spec (rows : List FlatRow) (k : Int × String)
    (h : ∃ r ∈ rows, rowKey r = k) :
    ∃ g, pickRow rows k = some g ∧ g ∈ rows ∧ rowKey g = k := by
  obtain ⟨r, hr, hrk⟩ := h
  have hrgrp : r ∈ rows.filter (fun r => decide (rowKey r = k)) :=
    List.mem_filter.mpr ⟨hr, decide_eq_true hrk⟩
  rcases hfp : (rows.filter (fun r => decide (rowKey r = k))).filter (·.is_primary)
      with _ | ⟨p, ps⟩
  · rcases hg : rows.filter (fun r => decide (rowKey r = k)) with _ | ⟨a, as⟩
    · rw [hg] at hrgrp
      cases hrgrp
    · have ha : a ∈ rows.filter (fun r => decide (rowKey r = k)) := by
        rw [hg]
        exact List.mem_cons_self a as
      have haf := List.mem_filter.mp ha
      refine ⟨a, ?_, haf.1, of_decide_eq_true haf.2⟩
      rw [hg] at hfp
      simp only [pickRow, hg, hfp]
      rfl
  · have hp : p ∈ rows.filter (fun r => decide (rowKey r = k)) := by
      apply List.mem_of_mem_filter (p := (·.is_primary))
      rw [hfp]
      exact List.mem_cons_self p ps
    have hpf := List.mem_filter.mp hp
    refine ⟨p, ?_, hpf.1, of_decide_eq_true hpf.2⟩
    simp only [pickRow, hfp]

theorem combine_keeps_uprn (data : Inputs) (v : VariantRow)
    (hv : v ∈ allVariants data) :
    v.uprn ∈ (combine_and_dedupe data).map (·.uprn) := by
  have hf : attachMeta data.classifications data.delivery_points v ∈ combinedRows data :=
    List.mem_map_of_mem _ hv
  have hkmem : rowKey (attachMeta data.classifications data.delivery_points v)
      ∈ ((combinedRows data).map rowKey).dedup :=
    List.mem_dedup.mpr (List.mem_map_of_mem _ hf)
  obtain ⟨g, hgp, hgrows, hgk⟩ := pickRow_spec (combinedRows data)
    (rowKey (attachMeta data.classifications data.delivery_points v))
    ⟨attachMeta data.classifications data.delivery_points v, hf, rfl⟩
  have hgout : g ∈ combine_and_dedupe data :=
    List.mem_filterMap.mpr ⟨_, hkmem, hgp⟩
  have hguprn : g.uprn = v.uprn := congrArg Prod.fst hgk
  rw [← hguprn]
  exact List.mem_map_of_mem _ hgout

/-- Claim C1: every property identifier present in `lpi_base_distinct`
appears at least once in the combined, deduplicated output; and the runner
compares the distinct identifier counts of `lpi_base_distinct` and of the
output after dedupe, any mismatch aborting the run with an integrity error
before any filesystem operation at the output path — no output file is
written. -/
theorem no_loss_and_integrity (data : Inputs) (u : Int) (fs : RunFs) (force : Bool) :
    (u ∈ (lpi_base_distinct data).map (·.uprn) →
      u ∈ (combine_and_dedupe data).map (·.uprn)) ∧
    (missingInputs fs.inputFiles = [] →
      (fs.output.isSome && !force) = false →
      distinctUprnCount data ≠ outputUprnCount (combine_and_dedupe data) →
      transformTrace fs force data
        = ([], .error (.integrityViolation (distinctUprnCount data)
            (outputUprnCount (combine_and_dedupe data))))) := by
  constructor
  · intro hu
    obtain ⟨r, hr, hru⟩ := List.mem_map.mp hu
    have hv : mkLpiVariant r ∈ allVariants data := by
      unfold allVariants
      exact List.mem_append_left _ (List.mem_append_left _
        (List.mem_append_left _ (List.mem_map_of_mem _ hr)))
    have hkeep := combine_keeps_uprn data (mkLpiVariant r) hv
    rw [show (mkLpiVariant r).uprn = r.uprn from rfl] at hkeep
    rwa [hru] at hkeep
  · intro h1 h2 h3
    simp [transformTrace, h1, h2, h3]

/-- Witness for C1: identifier 1 of `demoData1` survives into the combined
output; and on `demoMismatch` (a delivery point whose identifier is absent
from `lpi_base_distinct`) the count check fails and the run aborts with no
filesystem operation. -/
theorem no_loss_and_integrity_witness :
    (1 : Int) ∈ (combine_and_dedupe demoData1).map (·.uprn) ∧
    transformTrace fsAll true demoMismatch
      = ([], .error (.integrityViolation (distinctUprnCount demoMismatch)
          (outputUprnCount (combine_and_dedupe demoMismatch)))) :=
  ⟨(no_loss_and_integrity demoData1 1 fsAll true).1 (by decide),
   (no_loss_and_integrity demoMismatch 0 fsAll true).2 (by decide) (by decide)
     (by decide)⟩

/-- Witness for C3 amended at `demoData1`: the distinct table counts each
projected row at most once and the LPI variant table has one row per
distinct row. -/
theorem dedup_full_projection_amended_witness :
    (lpi_base_distinct demoData1).count
        (projDistinct (mkBaseRow demoData1 demoLpiA demoBlpu)) ≤ 1 ∧
    (stage_lpi_variants demoData1).length = (lpi_base_distinct demoData1).length :=
  ⟨(dedup_full_projection_amended demoData1
      (projDistinct (mkBaseRow demoData1 demoLpiA demoBlpu))).1,
   (dedup_full_projection_amended demoData1
      (projDistinct (mkBaseRow demoData1 demoLpiA demoBlpu))).2.2⟩

/-- Witness for C9 at a concrete input: text FLAT 1 with an end number 12 and
both suffixes set but no start number renders to the trimmed text alone. -/
theorem build_component_end_without_start_witness :
    build_component (some " FLAT 1 ") none (some "A") (some 12) (some "B")
      = "FLAT 1" := by
  rw [build_component_end_without_start]
  rfl
